import Mathlib

/-!
Shallow embedding of `gdi_starter_kit/gdi_starter_kit_stack.py`
(repository GUARDIANS-infrastructure/cdk-starter-kit).

The Python file declares a CDK stack: context lookups, an SSM parameter,
a Secrets Manager reference, a VPC, two security groups, an IAM role, an
EC2 instance carrying a bootstrap user-data script, an ACM certificate,
an application load balancer with one HTTPS listener and one target
group, and a Route 53 alias record.  Synthesis is modelled as a pure
function from the CDK context to a resource-graph value (`StackModel`),
failing (`Except.error`) exactly where `node.get_context` raises.

The bootstrap script `config_rems_host` is embedded twice: once as the
literal list of command strings the Python function emits, and once as a
semantic model of the interesting command blocks (the `jq` export block
and the `envsubst` substitution loop) used to settle the functional
claims about the script.
-/

/-- Module-level constant `EC2_ITYPE` of the source. -/
def EC2_ITYPE : String := "t2.medium"

/-- Module-level constant `EBS_GB` of the source. -/
def EBS_GB : Nat := 100

/-- Module-level constant `REMS_LISTEN` of the source: the application port. -/
def REMS_LISTEN : Nat := 3000

/-- CDK runtime context: a partial map from context keys to string values. -/
def Ctx : Type := String → Option String

/-- `self.node.get_context(key)`: returns the value, raising (modelled as
`Except.error`) when the key is absent. -/
def get_context (ctx : Ctx) (key : String) : Except String String :=
  match ctx key with
  | some v => .ok v
  | none => .error ("No context value present for " ++ key ++ " key")

/-- `self.node.try_get_context(key)`: returns the value or `None`. -/
def try_get_context (ctx : Ctx) (key : String) : Option String :=
  ctx key

/-- Python `x or default` on an optional string: `None` and the empty
string are falsy, so both fall through to the default. -/
def pyOr (v : Option String) (dflt : String) : String :=
  match v with
  | none => dflt
  | some s => if s = "" then dflt else s

/-- `rems_domain = f"{rems_domain_prefix}.{hz_domain}"` (line 40). -/
def rems_domain (pfx hz_domain : String) : String :=
  pfx ++ "." ++ hz_domain

/-- `rems_url = f"https://{rems_domain}/"` (line 41); the source comments
`# <- requires trailing slash`. -/
def rems_url (pfx hz_domain : String) : String :=
  "https://" ++ rems_domain pfx hz_domain ++ "/"

/-- An `ssm.StringParameter` resource. -/
structure SsmStringParameter where
  constructId : String
  parameterName : String
  stringValue : String
deriving DecidableEq, Repr

/-- A `secretsmanager.Secret.from_secret_name_v2` reference: it carries the
logical secret name only — no value is available at synthesis time. -/
structure SecretReference where
  constructId : String
  secretName : String
deriving DecidableEq, Repr

/-- An ingress-rule source peer: `ec2.Peer.any_ipv4()` or another security
group. -/
inductive Peer
  | anyIPv4
  | securityGroup (constructId : String)
deriving DecidableEq, Repr

/-- A security-group ingress rule; the source only ever uses
`ec2.Port.tcp(p)`, so a rule carries a single TCP port. -/
structure IngressRule where
  peer : Peer
  tcpPort : Nat
  description : String
deriving DecidableEq, Repr

/-- An `ec2.SecurityGroup` resource with its accumulated ingress rules. -/
structure SecurityGroup where
  constructId : String
  description : String
  allowAllOutbound : Bool
  ingress : List IngressRule
deriving DecidableEq, Repr

/-- The `iam.Role` attached to the instance. -/
structure Role where
  constructId : String
  assumedBy : String
  managedPolicies : List String
  secretsReadable : List String
deriving DecidableEq, Repr

/-- An `ec2.Instance` resource. -/
structure Ec2Instance where
  constructId : String
  instanceType : String
  machineImage : String
  subnetType : String
  securityGroup : String
  roleId : String
  blockDeviceGBs : List Nat
  userData : List String
deriving DecidableEq, Repr

/-- An `acm.Certificate` resource with DNS validation. -/
structure Certificate where
  constructId : String
  domainName : String
  validationZoneDomain : String
deriving DecidableEq, Repr

/-- An `elbv2.ApplicationTargetGroup` resource; targets are instance-id
tokens. -/
structure TargetGroupModel where
  constructId : String
  tcpPort : Nat
  protocol : String
  targets : List String
  healthCheckPort : String
deriving DecidableEq, Repr

/-- One `add_target_groups` call on a listener: the default action has no
priority and no conditions; the routing rule has both. -/
structure ListenerRule where
  constructId : String
  priority : Option Nat
  hostHeaders : List String
  targetGroupIds : List String
deriving DecidableEq, Repr

/-- An ALB listener (`alb.add_listener`). -/
structure Listener where
  constructId : String
  tcpPort : Nat
  certificateIds : List String
  openToAll : Bool
  rules : List ListenerRule
deriving DecidableEq, Repr

/-- An `elbv2.ApplicationLoadBalancer` resource. -/
structure LoadBalancer where
  constructId : String
  internetFacing : Bool
  securityGroup : String
  listeners : List Listener
deriving DecidableEq, Repr

/-- A `route53.ARecord` alias record. -/
structure DnsARecord where
  constructId : String
  zoneDomain : String
  recordName : String
  aliasTargetLb : String
deriving DecidableEq, Repr

/-- The synthesized resource graph of the stack. -/
structure StackModel where
  parameters : List SsmStringParameter
  secrets : List SecretReference
  securityGroups : List SecurityGroup
  roles : List Role
  instances : List Ec2Instance
  certificates : List Certificate
  loadBalancers : List LoadBalancer
  targetGroups : List TargetGroupModel
  records : List DnsARecord
deriving DecidableEq, Repr

instance : Inhabited StackModel :=
  ⟨⟨[], [], [], [], [], [], [], [], []⟩⟩

/-- The opaque CDK token standing for `instance.instance_id` (line 153):
resolved only at deployment, after synthesis. -/
def instance_id_token : String := "Token:RemsInstance/instanceId"

/-- The literal user-data command list emitted by `config_rems_host`
(lines 189–229), as a function of the SSM parameter name and the public
URL — exactly the two arguments of the Python function. -/
def config_rems_host (param_rems_oidc_sec_name : String) (url : String) :
    List String :=
  [ "dnf update -y"
  , "dnf install -y git docker pwgen"
  , "systemctl enable docker"
  , "systemctl start docker"
  , "curl -L https://github.com/docker/compose/releases/latest/download/docker-compose-$(uname -s)-$(uname -m) -o /usr/local/bin/docker-compose"
  , "chmod +x /usr/local/bin/docker-compose"
  , "curl -O https://bootstrap.pypa.io/get-pip.py"
  , "python3 get-pip.py"
  , "pip install authlib"
  , "cd /opt"
  , "git clone https://github.com/GUARDIANS-infrastructure/starter-kit-rems"
  , "cd starter-kit-rems/"
  , "python3 generate_jwks.py"
  , "oidc_sec_name=$(aws ssm get-parameter --name \"" ++ param_rems_oidc_sec_name ++ "\" --query Parameter.Value --output text)"
  , "oidc_config=$(aws secretsmanager get-secret-value --secret-id $oidc_sec_name --query SecretString --output text | jq .)"
  , "export OIDC_METADATA_URL=$(jq -r \x27.\"oidc-metadata-url\"\x27 <<< $oidc_config)"
  , "export OIDC_CLIENT_ID=$(jq -r \x27.\"oidc-client-id\"\x27 <<< $oidc_config)"
  , "export OIDC_CLIENT_SECRET=$(jq -r \x27.\"oidc-client-secret\"\x27 <<< $oidc_config)"
  , "export DB_NAME=remsdb"
  , "export DB_USER=rems"
  , "export DB_PASSWORD=$(pwgen)"
  , "export PUBLIC_URL=" ++ url
  , "for cfgfile in config.edn docker-compose.yml; do"
  , "\ttmpfile=$(mktemp)"
  , "\t\\cp -f --preserve=all --attributes-only $cfgfile $tmpfile"
  , "\tenvsubst < $cfgfile > $tmpfile"
  , "\t\\mv -f $tmpfile $cfgfile"
  , "done"
  , "docker-compose up -d db"
  , "docker-compose run --rm -e CMD=\"migrate\" app"
  , "docker-compose up -d app" ]

/-- The resource graph declared by `GdiStarterKitStack.__init__` (lines
44–176), in source order, as a function of the three context values. -/
def stackResources (hz_domain rems_oidc_sec_name pfx : String) : StackModel :=
  let domain := rems_domain pfx hz_domain
  let url := rems_url pfx hz_domain
  let param_name := "/Rems/OidcSecName"
  let alb_sg : SecurityGroup :=
    { constructId := "AlbSecurityGroup"
      description := "Allow HTTPS access to ALB"
      allowAllOutbound := true
      ingress :=
        [ ⟨Peer.anyIPv4, 443, "Allow HTTPS"⟩
        -- `add_listener(..., open=True)` (line 142) appends a rule opening
        -- the listener port to the world on the ALB security group:
        , ⟨Peer.anyIPv4, 443, "Allow from anyone on port 443"⟩ ] }
  let ec2_sg : SecurityGroup :=
    { constructId := "Ec2SecurityGroup"
      description := "Allow traffic from ALB on port " ++ toString REMS_LISTEN
      allowAllOutbound := true
      ingress :=
        [ ⟨Peer.securityGroup "AlbSecurityGroup", REMS_LISTEN,
           "Allow ALB to access EC2 on port " ++ toString REMS_LISTEN⟩ ] }
  {   parameters :=
        [ ⟨"RemsOidcSecName", param_name, rems_oidc_sec_name⟩ ]
      secrets := [ ⟨"oidc_sec", rems_oidc_sec_name⟩ ]
      securityGroups := [ alb_sg, ec2_sg ]
      roles :=
        [ ⟨"RemsInstanceSSM", "ec2.amazonaws.com",
           ["AmazonSSMManagedInstanceCore"], [rems_oidc_sec_name]⟩ ]
      instances :=
        [ { constructId := "RemsInstance"
            instanceType := EC2_ITYPE
            machineImage := "AmazonLinux2023"
            subnetType := "PRIVATE_WITH_EGRESS"
            securityGroup := "Ec2SecurityGroup"
            roleId := "RemsInstanceSSM"
            blockDeviceGBs := [EBS_GB]
            userData := config_rems_host param_name url } ]
      certificates :=
        [ ⟨"RemsTLSCertificate", domain, hz_domain⟩ ]
      loadBalancers :=
        [ { constructId := "GDI-ALB"
            internetFacing := true
            securityGroup := "AlbSecurityGroup"
            listeners :=
              [ { constructId := "HttpsListener"
                  tcpPort := 443
                  certificateIds := ["RemsTLSCertificate"]
                  openToAll := true
                  rules :=
                    [ ⟨"DefaultTargetGroup", none, [], ["RemsTargetGroup"]⟩
                    , ⟨"RemsDomainRule", some 1, [domain],
                       ["RemsTargetGroup"]⟩ ] } ] } ]
      targetGroups :=
        [ ⟨"RemsTargetGroup", REMS_LISTEN, "HTTP", [instance_id_token],
           toString REMS_LISTEN⟩ ]
      records :=
        [ ⟨"RemsAliasRecord", hz_domain, domain, "GDI-ALB"⟩ ] }

/-- `GdiStarterKitStack.__init__`: the context lookups (lines 35–39,
failing like `get_context` when a required key is absent, before any
resource is declared), then the declared resource graph. -/
def gdiStarterKitStack (ctx : Ctx) : Except String StackModel := do
  let hz_domain ← get_context ctx "hz_domain"
  let rems_oidc_sec_name ← get_context ctx "rems_oidc_sec_name"
  pure (stackResources hz_domain rems_oidc_sec_name
    (pyOr (try_get_context ctx "rems_domain_prefix") "rems"))

/-! ## Shell semantics of the bootstrap script blocks -/

/-- Semantics of `jq -r '."key"' <<< $oidc_config` (lines 211–213): the
raw string value of the field when present, the text `null` otherwise. -/
def jq_r (json : List (String × String)) (key : String) : String :=
  match json.lookup key with
  | some v => v
  | none => "null"

/-- Semantics of the `export` block of `config_rems_host` (lines
211–217): the environment-variable set the script exports, as a
function of the parsed secret JSON payload, the `pwgen` output and the
public URL.  The input JSON to output env-var mapping is pure. -/
def bootstrap_env_exports (secretJson : List (String × String))
    (pwgenOut : String) (url : String) : List (String × String) :=
  [ ("OIDC_METADATA_URL", jq_r secretJson "oidc-metadata-url")
  , ("OIDC_CLIENT_ID", jq_r secretJson "oidc-client-id")
  , ("OIDC_CLIENT_SECRET", jq_r secretJson "oidc-client-secret")
  , ("DB_NAME", "remsdb")
  , ("DB_USER", "rems")
  , ("DB_PASSWORD", pwgenOut)
  , ("PUBLIC_URL", url) ]

/-- A deployment environment's secret store: logical name to parsed JSON
payload.  The stack only ever holds a name (`SecretReference`); values
live here and are read exclusively by the booted instance. -/
def SecretStore : Type := String → List (String × String)

/-- Synthesis as observed from a deployment environment that also holds
the secret store: `Secret.from_secret_name_v2` (lines 52–54) references
the secret by logical name only, so the store is never consulted at
synthesis time. -/
def synth_with_store (ctx : Ctx) (_store : SecretStore) :
    Except String StackModel :=
  gdiStarterKitStack ctx

/-- The runtime secret-fetch command of the script (line 210): the only
point where the secret value is read, executed on the instance at boot. -/
def secret_fetch_command : String :=
  "oidc_config=$(aws secretsmanager get-secret-value --secret-id $oidc_sec_name --query SecretString --output text | jq .)"

/-! ### Filesystem model for the substitution loop (lines 219–224) -/

/-- A character may start/continue a shell variable name. -/
def isVarChar (c : Char) : Bool :=
  c.isAlphanum || c = '_'

/-- Fuel-indexed worker for `envsubst`: substitutes `$VAR` and
`\x7bVAR\x7d`-braced references by their environment values (empty when
unset), copying all other characters. -/
def envsubstAux (env : String → Option String) : Nat → List Char → List Char
  | 0, l => l
  | _ + 1, [] => []
  | fuel + 1, c :: cs =>
    if c = '$' then
      match cs with
      | '\x7b' :: rest =>
        let name := rest.takeWhile (fun d => d ≠ '\x7d')
        let rest2 := rest.dropWhile (fun d => d ≠ '\x7d')
        match rest2 with
        | '\x7d' :: tail =>
          ((env (String.mk name)).getD "").data ++ envsubstAux env fuel tail
        | _ => c :: envsubstAux env fuel cs
      | _ =>
        let name := cs.takeWhile isVarChar
        if name.isEmpty then c :: envsubstAux env fuel cs
        else ((env (String.mk name)).getD "").data
          ++ envsubstAux env fuel (cs.dropWhile isVarChar)
    else c :: envsubstAux env fuel cs

/-- Semantics of the `envsubst` utility on a file content string. -/
def envsubst (env : String → Option String) (s : String) : String :=
  String.mk (envsubstAux env s.data.length s.data)

/-- A file with its content and Unix attributes. -/
structure UnixFile where
  content : String
  mode : Nat
  owner : Nat
deriving DecidableEq, Repr

/-- A filesystem: a partial map from paths to files. -/
def FS : Type := String → Option UnixFile

/-- Point update of a filesystem. -/
def fsUpdate (fs : FS) (p : String) (f : Option UnixFile) : FS :=
  fun q => if q = p then f else fs q

/-- `tmpfile=$(mktemp)` (line 220): creates an empty file at the fresh
path, mode `0600`, owned by the calling user. -/
def mktemp_op (uid : Nat) (fs : FS) (tmp : String) : FS :=
  fsUpdate fs tmp (some ⟨"", 0o600, uid⟩)

/-- `\cp -f --preserve=all --attributes-only $cfgfile $tmpfile`
(line 221): copies mode and ownership, never content; a missing operand
makes the command fail, leaving the filesystem unchanged. -/
def cp_attributes_op (fs : FS) (src dst : String) : FS :=
  match fs src, fs dst with
  | some s, some d => fsUpdate fs dst (some ⟨d.content, s.mode, s.owner⟩)
  | _, _ => fs

/-- `envsubst < $cfgfile > $tmpfile` (line 222): rewrites the existing
destination's content with the substituted source content; redirection
to an existing file keeps the destination's attributes. -/
def envsubst_redirect_op (env : String → Option String) (fs : FS)
    (src dst : String) : FS :=
  match fs src, fs dst with
  | some s, some d =>
      fsUpdate fs dst (some ⟨envsubst env s.content, d.mode, d.owner⟩)
  | _, _ => fs

/-- `\mv -f $tmpfile $cfgfile` (line 223): an atomic whole-file rename;
the destination path switches in one step to the source file. -/
def mv_op (fs : FS) (src dst : String) : FS :=
  match fs src with
  | some f => fsUpdate (fsUpdate fs dst (some f)) src none
  | none => fs

/-- One iteration of the substitution loop (lines 219–224) on one
configuration file, with its four commands in source order. -/
def subst_once (env : String → Option String) (uid : Nat) (fs : FS)
    (cfg tmp : String) : FS :=
  mv_op (envsubst_redirect_op env (cp_attributes_op (mktemp_op uid fs tmp)
    cfg tmp) cfg tmp) tmp cfg

/-! ### Concrete context and stack used by witnesses -/

/-- A concrete, fully populated CDK context. -/
def demoCtx : Ctx :=
  fun k =>
    if k = "hz_domain" then some "example.org"
    else if k = "rems_oidc_sec_name" then some "my-oidc-secret"
    else none

/-- The stack synthesized from `demoCtx`. -/
def demoStack : StackModel :=
  ((gdiStarterKitStack demoCtx).toOption).getD default

/-! ## Helper lemmas -/

/-- Successful synthesis means both required context keys were present and
the result is the declared resource graph. -/
theorem gdiStarterKitStack_ok_iff (ctx : Ctx) (st : StackModel) :
    gdiStarterKitStack ctx = .ok st ↔
      ∃ hz sec, ctx "hz_domain" = some hz ∧
        ctx "rems_oidc_sec_name" = some sec ∧
        st = stackResources hz sec
          (pyOr (try_get_context ctx "rems_domain_prefix") "rems") := by
  unfold gdiStarterKitStack get_context
  cases h1 : ctx "hz_domain" <;> cases h2 : ctx "rems_oidc_sec_name" <;>
    simp [Bind.bind, Except.bind, Pure.pure, Except.pure, eq_comm]

/-- The generated public URL always ends in a slash character. -/
theorem rems_url_getLast (pfx hz : String) :
    (rems_url pfx hz).data.getLast? = some '/' := by
  rw [show (rems_url pfx hz).data
      = ("https://" ++ rems_domain pfx hz).data ++ ['/'] from rfl,
    List.getLast?_concat]

/-! ## Claims -/

/-- C4: for every hosted-zone domain and every domain prefix (given or
defaulted), the public URL handed to the bootstrap script (the value of
the `PUBLIC_URL` export in the instance user data) terminates with a
trailing slash. -/
theorem C4_public_url_trailing_slash (ctx : Ctx) (st : StackModel)
    (h : gdiStarterKitStack ctx = .ok st) :
    ∀ inst ∈ st.instances, ∃ u,
      ("export PUBLIC_URL=" ++ u) ∈ inst.userData ∧
      u.data.getLast? = some '/' := by
  obtain ⟨hz, sec, -, -, rfl⟩ := (gdiStarterKitStack_ok_iff ctx st).mp h
  intro inst hinst
  simp only [stackResources, List.mem_singleton] at hinst
  subst hinst
  refine ⟨rems_url (pyOr (try_get_context ctx "rems_domain_prefix") "rems") hz,
    ?_, rems_url_getLast _ _⟩
  simp [config_rems_host]

/-- Witness for C4 at a concrete context. -/
theorem C4_witness :
    gdiStarterKitStack demoCtx = .ok demoStack ∧
      ∀ inst ∈ demoStack.instances, ∃ u,
        ("export PUBLIC_URL=" ++ u) ∈ inst.userData ∧
        u.data.getLast? = some '/' :=
  ⟨rfl, C4_public_url_trailing_slash demoCtx demoStack rfl⟩

/-- C5: the bootstrap command sequence keeps the required order: the JWKS
generation (index 12) comes after the repository clone (index 10) and
before the parameter lookup (index 13), which comes before the secret
fetch (index 14); the database container start (index 28) precedes the
one-shot migration (index 29), which precedes the background application
start (index 30). -/
theorem C5_command_order (p u : String) :
    (config_rems_host p u)[10]?
      = some "git clone https://github.com/GUARDIANS-infrastructure/starter-kit-rems" ∧
    (config_rems_host p u)[12]? = some "python3 generate_jwks.py" ∧
    (config_rems_host p u)[13]?
      = some ("oidc_sec_name=$(aws ssm get-parameter --name \"" ++ p
          ++ "\" --query Parameter.Value --output text)") ∧
    (config_rems_host p u)[14]? = some secret_fetch_command ∧
    (config_rems_host p u)[28]? = some "docker-compose up -d db" ∧
    (config_rems_host p u)[29]?
      = some "docker-compose run --rm -e CMD=\"migrate\" app" ∧
    (config_rems_host p u)[30]? = some "docker-compose up -d app" ∧
    10 < 12 ∧ 12 < 13 ∧ 13 < 14 ∧ 28 < 29 ∧ 29 < 30 :=
  ⟨rfl, rfl, rfl, rfl, rfl, rfl, rfl, by decide, by decide, by decide,
   by decide, by decide⟩

/-- C3: for every secret JSON payload carrying the three required keys,
the export block of the bootstrap script exports the three OIDC
environment variables with exactly the corresponding field values. -/
theorem C3_oidc_exports_match (secretJson : List (String × String))
    (u i s pw url : String)
    (hu : secretJson.lookup "oidc-metadata-url" = some u)
    (hi : secretJson.lookup "oidc-client-id" = some i)
    (hs : secretJson.lookup "oidc-client-secret" = some s) :
    (bootstrap_env_exports secretJson pw url).lookup "OIDC_METADATA_URL"
      = some u ∧
    (bootstrap_env_exports secretJson pw url).lookup "OIDC_CLIENT_ID"
      = some i ∧
    (bootstrap_env_exports secretJson pw url).lookup "OIDC_CLIENT_SECRET"
      = some s := by
  simp [bootstrap_env_exports, jq_r, hu, hi, hs, List.lookup]

/-- Witness for C3 on a concrete secret payload. -/
theorem C3_witness :
    ([("oidc-metadata-url", "https://op.example.org/meta"),
      ("oidc-client-id", "client-1"),
      ("oidc-client-secret", "hunter2")].lookup "oidc-metadata-url"
        = some "https://op.example.org/meta") ∧
    (bootstrap_env_exports
        [("oidc-metadata-url", "https://op.example.org/meta"),
         ("oidc-client-id", "client-1"),
         ("oidc-client-secret", "hunter2")] "pw"
        "https://rems.example.org/").lookup "OIDC_METADATA_URL"
      = some "https://op.example.org/meta" ∧
    (bootstrap_env_exports
        [("oidc-metadata-url", "https://op.example.org/meta"),
         ("oidc-client-id", "client-1"),
         ("oidc-client-secret", "hunter2")] "pw"
        "https://rems.example.org/").lookup "OIDC_CLIENT_ID"
      = some "client-1" ∧
    (bootstrap_env_exports
        [("oidc-metadata-url", "https://op.example.org/meta"),
         ("oidc-client-id", "client-1"),
         ("oidc-client-secret", "hunter2")] "pw"
        "https://rems.example.org/").lookup "OIDC_CLIENT_SECRET"
      = some "hunter2" := by
  refine ⟨rfl, C3_oidc_exports_match _ _ _ _ _ _ rfl rfl rfl⟩

/-- A context missing the required `hz_domain` key. -/
def ctxNoHz : Ctx :=
  fun k => if k = "rems_oidc_sec_name" then some "my-oidc-secret" else none

/-- A context missing the required `rems_oidc_sec_name` key. -/
def ctxNoSec : Ctx :=
  fun k => if k = "hz_domain" then some "example.org" else none

/-- C10: constructing the stack requires the `hz_domain` and
`rems_oidc_sec_name` context keys — either one absent makes construction
fail before any resource is declared — while an absent or falsy
`rems_domain_prefix` silently defaults to the literal `rems`. -/
theorem C10_context_keys (ctx : Ctx) :
    (ctx "hz_domain" = none → ∃ e, gdiStarterKitStack ctx = .error e) ∧
    (ctx "rems_oidc_sec_name" = none →
      ∃ e, gdiStarterKitStack ctx = .error e) ∧
    (∀ hz sec, ctx "hz_domain" = some hz →
      ctx "rems_oidc_sec_name" = some sec →
      (ctx "rems_domain_prefix" = none ∨
        ctx "rems_domain_prefix" = some "") →
      gdiStarterKitStack ctx = .ok (stackResources hz sec "rems")) := by
  refine ⟨?_, ?_, ?_⟩
  · intro h
    unfold gdiStarterKitStack get_context
    rw [h]
    exact ⟨_, rfl⟩
  · intro h
    unfold gdiStarterKitStack get_context
    cases h1 : ctx "hz_domain"
    · exact ⟨_, rfl⟩
    · rw [h]
      exact ⟨_, rfl⟩
  · intro hz sec h1 h2 h3
    unfold gdiStarterKitStack get_context try_get_context pyOr
    rw [h1, h2]
    rcases h3 with h3 | h3 <;> rw [h3] <;> rfl

/-- Witness for C10: both failure modes and the default at concrete
contexts. -/
theorem C10_witness :
    (∃ e, gdiStarterKitStack ctxNoHz = .error e) ∧
    (∃ e, gdiStarterKitStack ctxNoSec = .error e) ∧
    gdiStarterKitStack demoCtx
      = .ok (stackResources "example.org" "my-oidc-secret" "rems") :=
  ⟨(C10_context_keys ctxNoHz).1 rfl,
   (C10_context_keys ctxNoSec).2.1 rfl,
   (C10_context_keys demoCtx).2.2 "example.org" "my-oidc-secret" rfl rfl
     (Or.inl rfl)⟩

/-- C1: the instance's security group never permits public (any-IPv4)
ingress on the application port 3000: its only ingress rule on that port
names the load balancer's security group as its sole source peer. -/
theorem C1_no_public_app_port_ingress (ctx : Ctx) (st : StackModel)
    (h : gdiStarterKitStack ctx = .ok st) :
    ∀ sg ∈ st.securityGroups, sg.constructId = "Ec2SecurityGroup" →
      (∀ r ∈ sg.ingress, r.tcpPort = REMS_LISTEN →
        r.peer = Peer.securityGroup "AlbSecurityGroup") ∧
      ∃ r ∈ sg.ingress, r.tcpPort = REMS_LISTEN ∧
        r.peer = Peer.securityGroup "AlbSecurityGroup" := by
  obtain ⟨hz, sec, -, -, rfl⟩ := (gdiStarterKitStack_ok_iff ctx st).mp h
  intro sg hsg hid
  simp only [stackResources, List.mem_cons, List.mem_singleton,
    List.not_mem_nil, or_false] at hsg
  rcases hsg with rfl | rfl
  · exact absurd hid (by decide)
  · refine ⟨?_, ⟨_, List.mem_singleton.mpr rfl, rfl, rfl⟩⟩
    intro r hr _
    rw [List.mem_singleton.mp hr]

/-- Witness for C1 at a concrete context. -/
theorem C1_witness :
    gdiStarterKitStack demoCtx = .ok demoStack ∧
      ∀ sg ∈ demoStack.securityGroups, sg.constructId = "Ec2SecurityGroup" →
        (∀ r ∈ sg.ingress, r.tcpPort = REMS_LISTEN →
          r.peer = Peer.securityGroup "AlbSecurityGroup") ∧
        ∃ r ∈ sg.ingress, r.tcpPort = REMS_LISTEN ∧
          r.peer = Peer.securityGroup "AlbSecurityGroup" :=
  ⟨rfl, C1_no_public_app_port_ingress demoCtx demoStack rfl⟩

/-- C2: every successful synthesis declares exactly one compute instance,
exactly one load balancer and exactly one target group, and that target
group's sole target is the one instance's identifier token. -/
theorem C2_single_instance_behind_alb (ctx : Ctx) (st : StackModel)
    (h : gdiStarterKitStack ctx = .ok st) :
    st.instances.length = 1 ∧ st.loadBalancers.length = 1 ∧
    st.targetGroups.length = 1 ∧
    (∀ tg ∈ st.targetGroups, tg.targets = [instance_id_token]) ∧
    ∀ inst ∈ st.instances, inst.constructId = "RemsInstance" := by
  obtain ⟨hz, sec, -, -, rfl⟩ := (gdiStarterKitStack_ok_iff ctx st).mp h
  refine ⟨rfl, rfl, rfl, ?_, ?_⟩
  · intro tg htg
    rw [List.mem_singleton.mp htg]
  · intro inst hinst
    rw [List.mem_singleton.mp hinst]

/-- Witness for C2 at a concrete context. -/
theorem C2_witness :
    gdiStarterKitStack demoCtx = .ok demoStack ∧
      demoStack.instances.length = 1 ∧ demoStack.loadBalancers.length = 1 ∧
      demoStack.targetGroups.length = 1 ∧
      (∀ tg ∈ demoStack.targetGroups, tg.targets = [instance_id_token]) ∧
      ∀ inst ∈ demoStack.instances, inst.constructId = "RemsInstance" :=
  ⟨rfl, C2_single_instance_behind_alb demoCtx demoStack rfl⟩

/-- C6 as stated is false: the synthesized load balancer admits no
inbound traffic on port 80 — neither a listener nor an ingress rule on
its security group mentions port 80. -/
theorem C6_counterexample :
    ¬ ((∃ lb ∈ demoStack.loadBalancers, ∃ l ∈ lb.listeners, l.tcpPort = 80) ∨
       ∃ sg ∈ demoStack.securityGroups, sg.constructId = "AlbSecurityGroup" ∧
         ∃ r ∈ sg.ingress, r.tcpPort = 80) := by
  decide

/-- C6 amended: the load balancer accepts public traffic on port 443
only — it is internet-facing, its sole listener is the open HTTPS
listener on 443, and every ingress rule of its security group admits
any-IPv4 sources on port 443 and nothing else. -/
theorem C6_https_only (ctx : Ctx) (st : StackModel)
    (h : gdiStarterKitStack ctx = .ok st) :
    (∀ lb ∈ st.loadBalancers, lb.internetFacing = true ∧
      ∀ l ∈ lb.listeners, l.tcpPort = 443 ∧ l.openToAll = true) ∧
    ∀ sg ∈ st.securityGroups, sg.constructId = "AlbSecurityGroup" →
      (∃ r ∈ sg.ingress, r.peer = Peer.anyIPv4 ∧ r.tcpPort = 443) ∧
      ∀ r ∈ sg.ingress, r.tcpPort = 443 ∧ r.peer = Peer.anyIPv4 := by
  obtain ⟨hz, sec, -, -, rfl⟩ := (gdiStarterKitStack_ok_iff ctx st).mp h
  constructor
  · intro lb hlb
    rw [List.mem_singleton.mp hlb]
    refine ⟨rfl, ?_⟩
    intro l hl
    rw [List.mem_singleton.mp hl]
    exact ⟨rfl, rfl⟩
  · intro sg hsg hid
    simp only [stackResources, List.mem_cons, List.mem_singleton,
      List.not_mem_nil, or_false] at hsg
    rcases hsg with rfl | rfl
    · refine ⟨⟨_, List.mem_cons_self _ _, rfl, rfl⟩, ?_⟩
      intro r hr
      simp only [List.mem_cons, List.mem_singleton, List.not_mem_nil,
        or_false] at hr
      rcases hr with rfl | rfl <;> exact ⟨rfl, rfl⟩
    · exact absurd hid (by decide)

/-- Witness for the amended C6 at a concrete context. -/
theorem C6_witness :
    gdiStarterKitStack demoCtx = .ok demoStack ∧
      (∀ lb ∈ demoStack.loadBalancers, lb.internetFacing = true ∧
        ∀ l ∈ lb.listeners, l.tcpPort = 443 ∧ l.openToAll = true) ∧
      ∀ sg ∈ demoStack.securityGroups, sg.constructId = "AlbSecurityGroup" →
        (∃ r ∈ sg.ingress, r.peer = Peer.anyIPv4 ∧ r.tcpPort = 443) ∧
        ∀ r ∈ sg.ingress, r.tcpPort = 443 ∧ r.peer = Peer.anyIPv4 :=
  ⟨rfl, C6_https_only demoCtx demoStack rfl⟩

/-- C7 as stated is false: no parameter-store entry of the synthesized
stack records the instance's identifier token — the single entry records
the OIDC secret's logical name. -/
theorem C7_counterexample :
    ¬ ∃ p ∈ demoStack.parameters, p.stringValue = instance_id_token := by
  decide

/-- C7 amended: the stack declares exactly one externally readable
parameter-store entry, `/Rems/OidcSecName`, and it records the logical
name of the OIDC secret taken from the context (the name the instance's
bootstrap resolves at boot) — not the instance identifier. -/
theorem C7_param_records_secret_name (ctx : Ctx) (st : StackModel)
    (h : gdiStarterKitStack ctx = .ok st) :
    ∃ sec, ctx "rems_oidc_sec_name" = some sec ∧
      st.parameters = [⟨"RemsOidcSecName", "/Rems/OidcSecName", sec⟩] ∧
      ∀ s ∈ st.secrets, s.secretName = sec := by
  obtain ⟨hz, sec, -, hsec, rfl⟩ := (gdiStarterKitStack_ok_iff ctx st).mp h
  refine ⟨sec, hsec, rfl, ?_⟩
  intro s hs
  rw [List.mem_singleton.mp hs]

/-- Witness for the amended C7 at a concrete context. -/
theorem C7_witness :
    gdiStarterKitStack demoCtx = .ok demoStack ∧
      ∃ sec, demoCtx "rems_oidc_sec_name" = some sec ∧
        demoStack.parameters
          = [⟨"RemsOidcSecName", "/Rems/OidcSecName", sec⟩] ∧
        ∀ s ∈ demoStack.secrets, s.secretName = sec :=
  ⟨rfl, C7_param_records_secret_name demoCtx demoStack rfl⟩

/-- A secret store mapping every name to one payload. -/
def storeA : SecretStore :=
  fun _ => [("oidc-metadata-url", "https://op-a.example.org/meta"),
            ("oidc-client-id", "id-a"), ("oidc-client-secret", "sec-a")]

/-- A second secret store holding different values under every name. -/
def storeB : SecretStore :=
  fun _ => [("oidc-metadata-url", "https://op-b.example.org/meta"),
            ("oidc-client-id", "id-b"), ("oidc-client-secret", "sec-b")]

/-- C8: the synthesized declaration, user-data text included, depends on
the secret entry's logical name only and never on its value — any two
secret stores yield the identical template — while the user data carries
the runtime fetch command that reads the value at instance boot. -/
theorem C8_template_independent_of_secret_value (ctx : Ctx)
    (s1 s2 : SecretStore) (st : StackModel)
    (h : gdiStarterKitStack ctx = .ok st) :
    synth_with_store ctx s1 = synth_with_store ctx s2 ∧
    ∀ inst ∈ st.instances, secret_fetch_command ∈ inst.userData := by
  refine ⟨rfl, ?_⟩
  obtain ⟨hz, sec, -, -, rfl⟩ := (gdiStarterKitStack_ok_iff ctx st).mp h
  intro inst hinst
  rw [List.mem_singleton.mp hinst]
  simp [config_rems_host, secret_fetch_command]

/-- Witness for C8: two stores with different values, identical
synthesis. -/
theorem C8_witness :
    synth_with_store demoCtx storeA = synth_with_store demoCtx storeB ∧
      ∀ inst ∈ demoStack.instances, secret_fetch_command ∈ inst.userData :=
  C8_template_independent_of_secret_value demoCtx storeA storeB demoStack rfl

/-- `mktemp` touches only the fresh temporary path. -/
theorem mktemp_op_ne (uid : Nat) (fs : FS) (tmp q : String) (h : q ≠ tmp) :
    mktemp_op uid fs tmp q = fs q := by
  simp [mktemp_op, fsUpdate, h]

/-- The attributes-only copy touches only its destination path. -/
theorem cp_attributes_op_ne (fs : FS) (src dst q : String) (h : q ≠ dst) :
    cp_attributes_op fs src dst q = fs q := by
  unfold cp_attributes_op
  cases hs : fs src <;> cases hd : fs dst <;> simp [fsUpdate, h]

/-- The `envsubst` redirection touches only its destination path. -/
theorem envsubst_redirect_op_ne (env : String → Option String) (fs : FS)
    (src dst q : String) (h : q ≠ dst) :
    envsubst_redirect_op env fs src dst q = fs q := by
  unfold envsubst_redirect_op
  cases hs : fs src <;> cases hd : fs dst <;> simp [fsUpdate, h]

/-- One loop iteration substitutes the configuration file's content and
preserves its mode and ownership. -/
theorem subst_once_at_cfg (env : String → Option String) (uid : Nat)
    (fs : FS) (cfg tmp : String) (f : UnixFile)
    (hf : fs cfg = some f) (hne : cfg ≠ tmp) :
    subst_once env uid fs cfg tmp cfg
      = some ⟨envsubst env f.content, f.mode, f.owner⟩ := by
  unfold subst_once mv_op envsubst_redirect_op cp_attributes_op mktemp_op
    fsUpdate
  simp [hf, hne]

/-- C9: the substitution loop is idempotent on file attributes and
replaces the configuration file only by a whole-file rename.  After one
run the file holds the substituted content with its original mode and
owner; a re-run (already-substituted input) again preserves mode and
owner; and during the re-run the configuration path is untouched by
`mktemp`, by the attributes-only copy and by the `envsubst` redirection
— only the final `mv` switches it, so no partial write is observable. -/
theorem C9_subst_idempotent_attributes_atomic
    (env : String → Option String) (uid1 uid2 : Nat) (fs : FS)
    (cfg tmp1 tmp2 : String) (f : UnixFile)
    (hf : fs cfg = some f) (h1 : cfg ≠ tmp1) (h2 : cfg ≠ tmp2) :
    subst_once env uid1 fs cfg tmp1 cfg
      = some ⟨envsubst env f.content, f.mode, f.owner⟩ ∧
    subst_once env uid2 (subst_once env uid1 fs cfg tmp1) cfg tmp2 cfg
      = some ⟨envsubst env (envsubst env f.content), f.mode, f.owner⟩ ∧
    mktemp_op uid2 (subst_once env uid1 fs cfg tmp1) tmp2 cfg
      = subst_once env uid1 fs cfg tmp1 cfg ∧
    cp_attributes_op
        (mktemp_op uid2 (subst_once env uid1 fs cfg tmp1) tmp2) cfg tmp2 cfg
      = subst_once env uid1 fs cfg tmp1 cfg ∧
    envsubst_redirect_op env
        (cp_attributes_op
          (mktemp_op uid2 (subst_once env uid1 fs cfg tmp1) tmp2) cfg tmp2)
        cfg tmp2 cfg
      = subst_once env uid1 fs cfg tmp1 cfg := by
  have once := subst_once_at_cfg env uid1 fs cfg tmp1 f hf h1
  have twice := subst_once_at_cfg env uid2 (subst_once env uid1 fs cfg tmp1)
    cfg tmp2 ⟨envsubst env f.content, f.mode, f.owner⟩ once h2
  have hm := mktemp_op_ne uid2 (subst_once env uid1 fs cfg tmp1) tmp2 cfg h2
  have hc := cp_attributes_op_ne
    (mktemp_op uid2 (subst_once env uid1 fs cfg tmp1) tmp2) cfg tmp2 cfg h2
  have he := envsubst_redirect_op_ne env
    (cp_attributes_op
      (mktemp_op uid2 (subst_once env uid1 fs cfg tmp1) tmp2) cfg tmp2)
    cfg tmp2 cfg h2
  exact ⟨once, twice, hm, hc.trans hm, he.trans (hc.trans hm)⟩

/-- A concrete filesystem holding one configuration file. -/
def demoFs : FS :=
  fun p => if p = "config.edn"
    then some ⟨"PORT=$PORT metadata=${OIDC_METADATA_URL}", 420, 1000⟩
    else none

/-- A concrete process environment for the substitution. -/
def demoEnv : String → Option String :=
  fun k => if k = "PORT" then some "3000"
    else if k = "OIDC_METADATA_URL" then some "https://op.example.org/meta"
    else none

/-- Witness for C9 on a concrete filesystem, file and environment. -/
theorem C9_witness :
    demoFs "config.edn"
      = some ⟨"PORT=$PORT metadata=${OIDC_METADATA_URL}", 420, 1000⟩ ∧
    "config.edn" ≠ "/tmp/tmp.aaa" ∧ "config.edn" ≠ "/tmp/tmp.bbb" ∧
    (subst_once demoEnv 1000 demoFs "config.edn" "/tmp/tmp.aaa" "config.edn"
      = some ⟨envsubst demoEnv "PORT=$PORT metadata=${OIDC_METADATA_URL}",
          420, 1000⟩ ∧
    subst_once demoEnv 1000
        (subst_once demoEnv 1000 demoFs "config.edn" "/tmp/tmp.aaa")
        "config.edn" "/tmp/tmp.bbb" "config.edn"
      = some ⟨envsubst demoEnv
          (envsubst demoEnv "PORT=$PORT metadata=${OIDC_METADATA_URL}"),
          420, 1000⟩ ∧
    mktemp_op 1000
        (subst_once demoEnv 1000 demoFs "config.edn" "/tmp/tmp.aaa")
        "/tmp/tmp.bbb" "config.edn"
      = subst_once demoEnv 1000 demoFs "config.edn" "/tmp/tmp.aaa"
          "config.edn" ∧
    cp_attributes_op
        (mktemp_op 1000
          (subst_once demoEnv 1000 demoFs "config.edn" "/tmp/tmp.aaa")
          "/tmp/tmp.bbb") "config.edn" "/tmp/tmp.bbb" "config.edn"
      = subst_once demoEnv 1000 demoFs "config.edn" "/tmp/tmp.aaa"
          "config.edn" ∧
    envsubst_redirect_op demoEnv
        (cp_attributes_op
          (mktemp_op 1000
            (subst_once demoEnv 1000 demoFs "config.edn" "/tmp/tmp.aaa")
            "/tmp/tmp.bbb") "config.edn" "/tmp/tmp.bbb")
        "config.edn" "/tmp/tmp.bbb" "config.edn"
      = subst_once demoEnv 1000 demoFs "config.edn" "/tmp/tmp.aaa"
          "config.edn") :=
  ⟨rfl, by decide, by decide,
   C9_subst_idempotent_attributes_atomic demoEnv 1000 1000 demoFs
     "config.edn" "/tmp/tmp.aaa" "/tmp/tmp.bbb"
     ⟨"PORT=$PORT metadata=${OIDC_METADATA_URL}", 420, 1000⟩
     rfl (by decide) (by decide)⟩
